import Mathlib

/-!
Shallow embedding of the story resolution and synthesis engine in
`mediacloud/mediawords/tm/stories.py`, together with proofs about its
candidate locator (`get_story_match`), preferred-record selector
(`get_preferred_story`), redirect policy (`ignore_redirect`), date-guess
tag classifier (`assign_date_guess_tag`) and record synthesizer
(`add_new_story`).

Database state is passed explicitly as a `DB` record holding the rows of
the tables touched by this module; the external collaborators (URL
normalizer, distinctive-domain extraction, media attribution, HTML title
extraction, date guessing, clock) are abstracted as function-valued
parameters, mirroring the module boundaries of the source.
-/

set_option autoImplicit false

/-- Errors a Python run of this module can raise: `assert` failures and
list-index errors (`sorted_media[0]` on an empty list). -/
inductive MCError where
  | assertionFailed
  | indexError
  deriving Repr, DecidableEq

/-- A row of the `stories` table, restricted to the columns this module
reads or writes. -/
structure Story where
  stories_id : Nat := 0
  media_id : Nat := 0
  url : String := ""
  guid : String := ""
  title : String := ""
  description : String := ""
  collect_date : String := ""
  publish_date : Option String := none
  deriving Repr, DecidableEq

/-- A row of the `media` table, restricted to the columns this module
reads. -/
structure Medium where
  media_id : Nat := 0
  url : String := ""
  dup_media_id : Option Nat := none
  foreign_rss_links : Bool := false
  deriving Repr, DecidableEq

/-- The slice of database state read by this module: `stories`, `media`,
`story_sentences` (one list entry per sentence row, carrying its
`stories_id`), `topic_ignore_redirects` (the stored normalized urls), and
`topic_seed_urls` (pairs of seed url and linked `stories_id`). -/
structure DB where
  stories : List Story := []
  media : List Medium := []
  story_sentences : List Nat := []
  topic_ignore_redirects : List String := []
  topic_seed_urls : List (String × Nat) := []
  deriving Repr

/-- External collaborators consumed by the locator and selector:
`mediawords.util.url.normalize_url_lossy`,
`mediawords.util.url.get_url_distinctive_domain`, and the first component
of `mediawords.tm.media.generate_medium_url_and_name_from_url`. -/
structure Env where
  normalize_url_lossy : String → String
  get_url_distinctive_domain : String → String
  generate_medium_url_from_url : String → String

/-- Result object of the external `guess_date` collaborator
(`mediawords.tm.guess_date.GuessDateResult`): whether a date was found,
the human-readable guess-method description, and the found date. -/
structure GuessDateResult where
  found : Bool := false
  guess_method : String := ""
  date : Option String := none
  deriving Repr, DecidableEq

/-- External collaborators consumed by `add_new_story`:
`mediawords.tm.media.guess_medium`, `mediawords.util.html.html_title`,
`mediawords.tm.guess_date.guess_date`, and the system clock
(`datetime.datetime.now().isoformat()`). -/
structure NewStoryEnv where
  guess_medium : String → Medium
  html_title : String → String → Nat → String
  guess_date : String → String → GuessDateResult
  now : String

/-- `_MAX_URL_LENGTH = 1024` (stories.py line 17). -/
def _MAX_URL_LENGTH : Nat := 1024

/-- `_MAX_TITLE_LENGTH = 1024` (stories.py line 18). -/
def _MAX_TITLE_LENGTH : Nat := 1024

/-- Python slicing `s[0:n]` on a string. -/
def truncate (s : String) (n : Nat) : String :=
  ⟨s.data.take n⟩

/-- `re.sub('\x00', '', s)`: drop the null characters of `s`
(stories.py lines 342-344). -/
def strip_nulls (s : String) : String :=
  ⟨s.data.filter (fun c => c != '\x00')⟩

/-- Deduplication keeping first occurrences; models Python's
`list(set(...))` (whose order is unspecified) and SQL `distinct` /
`union`. -/
def dedup {α : Type} [BEq α] (xs : List α) : List α :=
  xs.foldl (fun acc x => if acc.contains x then acc else acc ++ [x]) []

/-- Number of `story_sentences` rows of a story: the `count(*)` of the
`group by stories_id` in `_get_story_with_most_sentences`. -/
def sentence_count (db : DB) (sid : Nat) : Nat :=
  (db.story_sentences.filter (fun x => x == sid)).length

/-- The inner query of `_get_story_with_most_sentences` (stories.py lines
68-74): `select stories_id from story_sentences where stories_id =
any(ids) group by stories_id order by count(*) desc limit 1`. Group keys
are taken in first-appearance order of the table; among ids that have at
least one sentence row the one with the greatest count is kept, the
earliest group on ties (the SQL leaves the tie order unspecified; this is
one deterministic refinement of it, and in particular it cannot depend on
the candidate order, which the query never sees). -/
def top_sentence_story_id (db : DB) (ids : List Nat) : Option Nat :=
  match (dedup db.story_sentences).filter (fun x => ids.contains x) with
  | [] => none
  | a :: t =>
    some (t.foldl (fun best x =>
      if sentence_count db x > sentence_count db best then x else best) a)

/-- The full store query of `_get_story_with_most_sentences` (stories.py
lines 63-76): resolve the winning `stories_id` to its `stories` row. -/
def db_query_story_with_most_sentences (db : DB) (ids : List Nat) : Option Story :=
  (top_sentence_story_id db ids).bind
    (fun sid => db.stories.find? (fun s => s.stories_id == sid))

/-- `_get_story_with_most_sentences` (stories.py lines 56-81): assert the
list is non-empty, return a singleton unchanged, otherwise query the
store and fall back to `stories[0]` when the query returns no row. -/
def _get_story_with_most_sentences (db : DB) : List Story → Except MCError Story
  | [] => .error .assertionFailed
  | [s] => .ok s
  | s1 :: s2 :: rest =>
    match db_query_story_with_most_sentences db
        ((s1 :: s2 :: rest).map (fun s => s.stories_id)) with
    | some story => .ok story
    | none => .ok s1

/-- `_url_domain_matches_medium` (stories.py lines 84-92). -/
def _url_domain_matches_medium (env : Env) (medium : Medium) (urls : List String) : Bool :=
  let medium_domain := env.get_url_distinctive_domain medium.url
  let story_domains := urls.map env.get_url_distinctive_domain
  (story_domains.filter (fun d => medium_domain == d)).length > 0

/-- A `media` row annotated by `get_preferred_story` (stories.py lines
125-141) with its inverted-boolean ranking keys and its slice of the
candidate stories. -/
structure RankedMedium where
  medium : Medium
  is_dup_target : Nat
  is_not_dup_source : Nat
  matches_domain : Nat
  stories : List Story
  deriving Repr, DecidableEq

/-- The media query plus annotation loop of `get_preferred_story`
(stories.py lines 125-141): fetch the media rows of the candidates' media
ids (in table order), compute `is_dup_target` via the SQL `exists`
subquery, invert the booleans into sort keys exactly as the Python does
(`1 if medium['dup_media_id'] else 0` is Python truthiness, so an id of 0
also counts as falsy), and attach each medium's candidate stories. -/
def rank_media (env : Env) (db : DB) (stories : List Story) : List RankedMedium :=
  (db.media.filter
      (fun m => (stories.map (fun s => s.media_id)).contains m.media_id)).map
    (fun m =>
      { medium := m
        is_dup_target :=
          if db.media.any (fun d => d.dup_media_id == some m.media_id) then 0 else 1
        is_not_dup_source :=
          match m.dup_media_id with
          | none => 0
          | some d => if d = 0 then 0 else 1
        matches_domain :=
          if _url_domain_matches_medium env m (stories.map (fun s => s.url)) then 0 else 1
        stories := stories.filter (fun s => s.media_id == m.media_id) })

/-- The Python sort key tuple `('is_dup_target', 'is_not_dup_source',
'matches_domain', 'media_id')` of stories.py line 145. -/
def rkey (r : RankedMedium) : Nat × Nat × Nat × Nat :=
  (r.is_dup_target, r.is_not_dup_source, r.matches_domain, r.medium.media_id)

/-- Lexicographic comparison of Python 4-tuples of ints. -/
def keyLt (a b : Nat × Nat × Nat × Nat) : Bool :=
  if a.1 ≠ b.1 then decide (a.1 < b.1)
  else if a.2.1 ≠ b.2.1 then decide (a.2.1 < b.2.1)
  else if a.2.2.1 ≠ b.2.2.1 then decide (a.2.2.1 < b.2.2.1)
  else decide (a.2.2.2 < b.2.2.2)

/-- `sorted(media, key=...)[0]` (stories.py lines 143-147): only the head
of the sorted list is used, and Python's sort is stable, so this is the
first list element attaining the minimal key; `none` models the
`IndexError` of indexing an empty list. -/
def sorted_head : List RankedMedium → Option RankedMedium
  | [] => none
  | m :: ms =>
    some (ms.foldl (fun best x => if keyLt (rkey x) (rkey best) then x else best) m)

/-- `get_preferred_story` (stories.py lines 95-149). -/
def get_preferred_story (env : Env) (db : DB) : List Story → Except MCError Story
  | [] => .error .assertionFailed
  | [s] => .ok s
  | s1 :: s2 :: rest =>
    match sorted_head (rank_media env db (s1 :: s2 :: rest)) with
    | none => .error .indexError
    | some top => _get_story_with_most_sentences db top.stories

/-- `ignore_redirect` (stories.py lines 152-165). -/
def ignore_redirect (env : Env) (db : DB) (url : String) (redirect_url : Option String) : Bool :=
  match redirect_url with
  | none => false
  | some r =>
    if url = r then false
    else
      let medium_url := env.generate_medium_url_from_url r
      let u := env.normalize_url_lossy medium_url
      db.topic_ignore_redirects.contains u

/-- The `ru` computation of `get_story_match` (stories.py lines 189-191):
`ru` is initialized to `''` and only overwritten when the redirect is not
ignored, so an ignored redirect leaves `ru` as the empty string. -/
def effective_redirect (env : Env) (db : DB) (url : String) (redirect_url : Option String) : String :=
  if ignore_redirect env db url redirect_url then ""
  else
    match redirect_url with
    | some r => truncate r _MAX_URL_LENGTH
    | none => truncate url _MAX_URL_LENGTH

/-- The variant list `list(set((u, ru, nu, nru)))` of `get_story_match`
(stories.py lines 187-196). -/
def variant_urls (env : Env) (db : DB) (url : String) (redirect_url : Option String) : List String :=
  let u := truncate url _MAX_URL_LENGTH
  let ru := effective_redirect env db url redirect_url
  let nu := env.normalize_url_lossy u
  let nru := env.normalize_url_lossy ru
  dedup [u, ru, nu, nru]

/-- The store query of `get_story_match` (stories.py lines 199-217): the
union of stories whose url or guid is a variant, and stories linked from
a `topic_seed_urls` row whose url is a variant, both joined to `media`
and restricted to `foreign_rss_links = false`. -/
def story_query (db : DB) (urls : List String) : List Story :=
  let not_foreign := fun (s : Story) =>
    db.media.any (fun m => m.media_id == s.media_id && m.foreign_rss_links == false)
  let part1 := db.stories.filter
    (fun s => (urls.contains s.url || urls.contains s.guid) && not_foreign s)
  let part2 := db.stories.filter
    (fun s =>
      db.topic_seed_urls.any (fun csu => csu.2 == s.stories_id && urls.contains csu.1)
        && not_foreign s)
  dedup (part1 ++ part2)

/-- `get_story_match` (stories.py lines 168-221): build the variant list,
query the store, and hand the result straight to `get_preferred_story`
(the source has no emptiness check before that call). -/
def get_story_match (env : Env) (db : DB) (url : String) (redirect_url : Option String) : Except MCError Story :=
  let stories := story_query db (variant_urls env db url redirect_url)
  get_preferred_story env db stories

/-- Python `str.startswith`: the second string is a prefix of the
first. -/
def startswith (s pre : String) : Bool :=
  pre.data.isPrefixOf s.data

/-- Python `\w` on the ASCII range: letters, digits, underscore. -/
def isWordChar (c : Char) : Bool :=
  c.isAlphanum || c == '_'

/-- `re.search(r'\<(\w+)', s)` of stories.py line 271: find the first
`<` that is followed by at least one word character and return the
maximal word-character run after it. -/
def find_tag_name : List Char → Option String
  | [] => none
  | '<' :: rest =>
    match rest with
    | [] => none
    | c :: _ =>
      if isWordChar c then some ⟨rest.takeWhile isWordChar⟩
      else find_tag_name rest
  | _ :: rest => find_tag_name rest

/-- The classification performed by `assign_date_guess_tag` (stories.py
lines 265-281), returning the `(tag_sets.name, tags.tag)` pair it then
attaches to the story through the store's find-or-create calls. -/
def assign_date_guess_tag (date_guess : GuessDateResult) (fallback_date : Option String) : String × String :=
  if date_guess.found then
    let guess_method := date_guess.guess_method
    if startswith guess_method "Extracted from url" then
      ("date_guess_method", "guess_by_url")
    else if startswith guess_method "Extracted from tag" then
      let html_tag :=
        match find_tag_name guess_method.data with
        | some g => g
        | none => "unknown"
      ("date_guess_method", "guess_by_tag_" ++ html_tag)
    else
      ("date_guess_method", "guess_by_unknown")
  else if fallback_date.isSome then
    ("date_guess_method", "fallback_date")
  else
    ("date_invalid", "date_invalid")

/-- The story record built and persisted by `add_new_story` (stories.py
lines 309-351): truncate the url, attribute a medium, extract a title,
strip null characters from url/guid/title, and compute `publish_date`
from the date guess, the fallback date and the clock. The
`stories_id` is assigned by the store on insert and is irrelevant to the
record's field invariants, so it is left at 0 here. -/
def add_new_story (env : NewStoryEnv) (url content : String) (fallback_date : Option String) : Story :=
  let url := truncate url _MAX_URL_LENGTH
  let medium := env.guess_medium url
  let title := env.html_title content url _MAX_TITLE_LENGTH
  let date_guess := env.guess_date url content
  let publish0 := if date_guess.found then date_guess.date else fallback_date
  { stories_id := 0
    media_id := medium.media_id
    url := strip_nulls url
    guid := strip_nulls url
    title := strip_nulls title
    description := ""
    collect_date := env.now
    publish_date :=
      match publish0 with
      | some d => some d
      | none => some env.now }

/-! ### Concrete fixtures used by the closed theorems -/

/-- Test collaborator environment: identity url utilities. -/
def envTest : Env :=
  { normalize_url_lossy := fun u => u
    get_url_distinctive_domain := fun u => u
    generate_medium_url_from_url := fun u => u }

/-- A store with no rows at all. -/
def dbEmptyStore : DB := {}

/-- A store whose redirect ignore-list contains one parked domain. -/
def dbIgn : DB := { topic_ignore_redirects := ["http://park.example"] }

/-- Duplication-target source (C3): pointed at by `mC3.dup_media_id`,
with the higher numeric id of the two candidate sources. -/
def mA3 : Medium := { media_id := 5, url := "http://a.example/x" }

/-- Non-target source (C3) with the lower numeric id. -/
def mB3 : Medium := { media_id := 2, url := "http://b.example/y" }

/-- Third source whose `dup_media_id` points at `mA3`; it owns no
candidate story. -/
def mC3 : Medium := { media_id := 9, url := "http://c.example", dup_media_id := some 5 }

/-- Candidate story of `mA3`. -/
def sA3 : Story := { stories_id := 11, media_id := 5, url := "http://a.example/x" }

/-- Candidate story of `mB3`. -/
def sB3 : Story := { stories_id := 12, media_id := 2, url := "http://b.example/y" }

/-- Store for the C3 scenario. -/
def db3 : DB := { stories := [sA3, sB3], media := [mB3, mA3, mC3] }

/-- Ranked row of `mA3` as computed by `rank_media envTest db3`. -/
def rA3 : RankedMedium :=
  { medium := mA3, is_dup_target := 0, is_not_dup_source := 0
    matches_domain := 0, stories := [sA3] }

/-- Ranked row of `mB3` as computed by `rank_media envTest db3`. -/
def rB3 : RankedMedium :=
  { medium := mB3, is_dup_target := 1, is_not_dup_source := 0
    matches_domain := 0, stories := [sB3] }

/-- Domain-matching source (C4), higher numeric id. -/
def mA4 : Medium := { media_id := 7, url := "http://a.example/x" }

/-- Source with no domain match among the candidates (C4), lower id. -/
def mB4 : Medium := { media_id := 3, url := "http://other.example" }

/-- Candidate story of `mA4`. -/
def sA4 : Story := { stories_id := 21, media_id := 7, url := "http://a.example/x" }

/-- Candidate story of `mB4`; its url is unrelated to `mB4.url`. -/
def sB4 : Story := { stories_id := 22, media_id := 3, url := "http://b.example/y" }

/-- Store for the C4 scenario. -/
def db4 : DB := { stories := [sA4, sB4], media := [mB4, mA4] }

/-- Ranked row of `mA4` as computed by `rank_media envTest db4`. -/
def rA4 : RankedMedium :=
  { medium := mA4, is_dup_target := 1, is_not_dup_source := 0
    matches_domain := 0, stories := [sA4] }

/-- Ranked row of `mB4` as computed by `rank_media envTest db4`. -/
def rB4 : RankedMedium :=
  { medium := mB4, is_dup_target := 1, is_not_dup_source := 0
    matches_domain := 1, stories := [sB4] }

/-- First of two same-source stories with one sentence each (C5). -/
def sA5 : Story := { stories_id := 31, media_id := 4, url := "http://m.example/a" }

/-- Second of two same-source stories with one sentence each (C5). -/
def sB5 : Story := { stories_id := 32, media_id := 4, url := "http://m.example/b" }

/-- The single source of the C5 scenario. -/
def m5 : Medium := { media_id := 4, url := "http://m.example" }

/-- Store for the C5 scenario: both stories have exactly one sentence
row, and `sA5` appears first in the `story_sentences` table. -/
def db5 : DB :=
  { stories := [sA5, sB5], media := [m5], story_sentences := [31, 32] }

/-- Candidate story of the first C10 source. -/
def s10a : Story := { stories_id := 41, media_id := 6, url := "http://p.example/1" }

/-- Candidate story of the second C10 source. -/
def s10b : Story := { stories_id := 42, media_id := 8, url := "http://q.example/2" }

/-- First C10 source. -/
def m10a : Medium := { media_id := 6, url := "http://p.example" }

/-- Second C10 source. -/
def m10b : Medium := { media_id := 8, url := "http://q.example" }

/-- Store for the C10 scenario. -/
def db10 : DB :=
  { stories := [s10a, s10b], media := [m10a, m10b], story_sentences := [42] }

/-- Date guess found by url (C7 scenario a). -/
def dgU : GuessDateResult :=
  { found := true, guess_method := "Extracted from url", date := some "2020-01-01" }

/-- Date guess found by an html tag with a parseable name (C7 scenario b). -/
def dgT : GuessDateResult :=
  { found := true, guess_method := "Extracted from tag <h1 class=entry>"
    date := some "2020-01-02" }

/-- Date guess found by tag but with no parseable tag name. -/
def dgTbad : GuessDateResult :=
  { found := true, guess_method := "Extracted from tag", date := some "2020-01-03" }

/-- Date guess found by some other method. -/
def dgO : GuessDateResult :=
  { found := true, guess_method := "merged story rss", date := some "2020-01-04" }

/-- Date guess that found nothing. -/
def dgN : GuessDateResult := { found := false }

/-- The medium attributed by the C8 witness environment. -/
def mediumW : Medium := { media_id := 3, url := "http://w.example" }

/-- Concrete synthesizer environment whose date guesser finds a date. -/
def env8 : NewStoryEnv :=
  { guess_medium := fun _ => mediumW
    html_title := fun _ _ _ => "A Title"
    guess_date := fun _ _ => dgU
    now := "2021-05-05T00:00:00" }

/-! ### General helper lemmas -/

theorem contains_iff_mem {α : Type} [BEq α] [LawfulBEq α] (l : List α) (x : α) :
    l.contains x = true ↔ x ∈ l :=
  List.elem_iff

theorem mem_dedup_foldl {α : Type} [BEq α] [LawfulBEq α] (x : α) :
    ∀ (l acc : List α),
      (x ∈ l.foldl (fun acc y => if acc.contains y then acc else acc ++ [y]) acc
        ↔ (x ∈ acc ∨ x ∈ l)) := by
  intro l
  induction l with
  | nil => intro acc; simp
  | cons b t ih =>
    intro acc
    rw [List.foldl_cons]
    show x ∈ t.foldl _ (if acc.contains b then acc else acc ++ [b]) ↔ _
    rw [ih]
    by_cases h : acc.contains b = true
    · have hb : b ∈ acc := (contains_iff_mem acc b).mp h
      simp only [if_pos h, List.mem_cons]
      constructor
      · rintro (h1 | h1)
        · exact Or.inl h1
        · exact Or.inr (Or.inr h1)
      · rintro (h1 | rfl | h1)
        · exact Or.inl h1
        · exact Or.inl hb
        · exact Or.inr h1
    · simp only [if_neg h, List.mem_append, List.mem_singleton, List.mem_cons]
      tauto

theorem mem_dedup {α : Type} [BEq α] [LawfulBEq α] (x : α) (l : List α) :
    x ∈ dedup l ↔ x ∈ l := by
  unfold dedup
  rw [mem_dedup_foldl]
  simp

theorem foldl_pick_mem {α : Type} (p : α → α → Prop) [DecidableRel p] :
    ∀ (l : List α) (a : α),
      (l.foldl (fun best x => if p x best then x else best) a) ∈ a :: l := by
  intro l
  induction l with
  | nil => intro a; simp
  | cons b t ih =>
    intro a
    rw [List.foldl_cons]
    show (t.foldl _ (if p b a then b else a)) ∈ a :: b :: t
    by_cases h : p b a
    · rw [if_pos h]
      exact List.mem_cons_of_mem a (ih b)
    · rw [if_neg h]
      rcases List.mem_cons.mp (ih a) with h1 | h1
      · rw [h1]; exact List.mem_cons_self a (b :: t)
      · exact List.mem_cons_of_mem a (List.mem_cons_of_mem b h1)

theorem foldl_pick_max {α : Type} (f : α → Nat) :
    ∀ (l : List α) (a : α) (y : α), y ∈ a :: l →
      f y ≤ f (l.foldl (fun best x => if f x > f best then x else best) a) := by
  intro l
  induction l with
  | nil =>
    intro a y hy
    rw [List.mem_singleton] at hy
    rw [hy, List.foldl_nil]
  | cons b t ih =>
    intro a y hy
    rw [List.foldl_cons]
    show f y ≤ f (t.foldl _ (if f b > f a then b else a))
    have hstep : f a ≤ f (if f b > f a then b else a)
        ∧ f b ≤ f (if f b > f a then b else a) := by
      by_cases h : f b > f a
      · rw [if_pos h]; exact ⟨Nat.le_of_lt h, Nat.le_refl _⟩
      · rw [if_neg h]; exact ⟨Nat.le_refl _, Nat.le_of_not_lt h⟩
    have hhead : f (if f b > f a then b else a)
        ≤ f (t.foldl (fun best x => if f x > f best then x else best)
              (if f b > f a then b else a)) :=
      ih _ _ (List.mem_cons_self _ _)
    rcases List.mem_cons.mp hy with rfl | hy2
    · exact Nat.le_trans hstep.1 hhead
    rcases List.mem_cons.mp hy2 with rfl | hy3
    · exact Nat.le_trans hstep.2 hhead
    · exact ih _ _ (List.mem_cons_of_mem _ hy3)

/-! ### Lemmas about the embedded operations -/

theorem top_sentence_story_id_spec (db : DB) (ids : List Nat) (sid : Nat)
    (h : top_sentence_story_id db ids = some sid) :
    sid ∈ ids ∧ ∀ x ∈ ids, sentence_count db x ≤ sentence_count db sid := by
  unfold top_sentence_story_id at h
  rcases hs : (dedup db.story_sentences).filter (fun x => ids.contains x) with _ | ⟨a, t⟩
  · rw [hs] at h; exact absurd h (by simp)
  · rw [hs] at h
    have hfold :
        t.foldl (fun best x =>
          if sentence_count db x > sentence_count db best then x else best) a = sid :=
      Option.some.inj h
    have hmem : sid ∈ a :: t := by
      rw [← hfold]
      exact foldl_pick_mem (fun x best => sentence_count db x > sentence_count db best) t a
    have hmem2 : sid ∈ (dedup db.story_sentences).filter (fun x => ids.contains x) := by
      rw [hs]; exact hmem
    have hin : sid ∈ ids := by
      have := (List.mem_filter.mp hmem2).2
      exact (contains_iff_mem ids sid).mp this
    refine ⟨hin, ?_⟩
    intro x hx
    by_cases hc : sentence_count db x = 0
    · rw [hc]; exact Nat.zero_le _
    · have hxs : x ∈ db.story_sentences := by
        by_contra hnot
        apply hc
        unfold sentence_count
        rw [List.filter_eq_nil_iff.mpr]
        · rfl
        · intro y hy
          simp only [beq_iff_eq]
          intro hyx
          exact hnot (hyx ▸ hy)
      have hxf : x ∈ a :: t := by
        rw [← hs]
        exact List.mem_filter.mpr
          ⟨(mem_dedup x db.story_sentences).mpr hxs, (contains_iff_mem ids x).mpr hx⟩
      rw [← hfold]
      exact foldl_pick_max (fun z => sentence_count db z) t a x hxf

theorem db_query_spec (db : DB) (ids : List Nat) (q : Story)
    (h : db_query_story_with_most_sentences db ids = some q) :
    q ∈ db.stories ∧ q.stories_id ∈ ids
      ∧ ∀ x ∈ ids, sentence_count db x ≤ sentence_count db q.stories_id := by
  unfold db_query_story_with_most_sentences at h
  rcases ho : top_sentence_story_id db ids with _ | sid
  · rw [ho] at h; exact absurd h (by simp)
  · rw [ho] at h
    simp only [Option.bind_some, Option.some_bind] at h
    have hms := List.mem_of_find?_eq_some h
    have hp := List.find?_some h
    have hq : q.stories_id = sid := by simpa using hp
    obtain ⟨h1, h2⟩ := top_sentence_story_id_spec db ids sid ho
    exact ⟨hms, hq ▸ h1, by rw [hq]; exact h2⟩

theorem gswms_spec (db : DB) (stories : List Story) (hne : stories ≠ []) :
    ∃ s, _get_story_with_most_sentences db stories = .ok s ∧
      (s ∈ stories ∨ (s ∈ db.stories ∧ ∃ c ∈ stories, s.stories_id = c.stories_id)) := by
  cases stories with
  | nil => exact absurd rfl hne
  | cons s1 t =>
    cases t with
    | nil => exact ⟨s1, rfl, Or.inl (List.mem_cons_self _ _)⟩
    | cons s2 rest =>
      rcases hq : db_query_story_with_most_sentences db
          ((s1 :: s2 :: rest).map (fun s => s.stories_id)) with _ | q
      · refine ⟨s1, ?_, Or.inl (List.mem_cons_self _ _)⟩
        simp only [List.map_cons] at hq
        simp [_get_story_with_most_sentences, hq]
      · obtain ⟨hmemdb, hid, -⟩ := db_query_spec db _ q hq
        rw [List.mem_map] at hid
        obtain ⟨c, hc, he⟩ := hid
        refine ⟨q, ?_, Or.inr ⟨hmemdb, c, hc, he.symm⟩⟩
        simp only [List.map_cons] at hq
        simp [_get_story_with_most_sentences, hq]

theorem rank_media_fields (env : Env) (db : DB) (stories : List Story) (r : RankedMedium)
    (h : r ∈ rank_media env db stories) :
    r.medium ∈ db.media ∧
    r.medium.media_id ∈ stories.map (fun s => s.media_id) ∧
    r.stories = stories.filter (fun s => s.media_id == r.medium.media_id) ∧
    r.is_dup_target =
      (if db.media.any (fun d => d.dup_media_id == some r.medium.media_id) then 0 else 1) ∧
    r.matches_domain =
      (if _url_domain_matches_medium env r.medium (stories.map (fun s => s.url)) then 0 else 1) := by
  unfold rank_media at h
  rw [List.mem_map] at h
  obtain ⟨m, hm, rfl⟩ := h
  have hm2 := List.mem_filter.mp hm
  exact ⟨hm2.1, (contains_iff_mem _ _).mp hm2.2, rfl, rfl, rfl⟩

theorem sorted_head_mem (l : List RankedMedium) (r : RankedMedium)
    (h : sorted_head l = some r) : r ∈ l := by
  cases l with
  | nil => exact absurd h (by simp [sorted_head])
  | cons a t =>
    have hfold := Option.some.inj h
    rw [← hfold]
    exact foldl_pick_mem (fun x best => keyLt (rkey x) (rkey best) = true) t a

theorem filter_media_ne_nil (stories : List Story) (mid : Nat)
    (h : mid ∈ stories.map (fun s => s.media_id)) :
    stories.filter (fun s => s.media_id == mid) ≠ [] := by
  rw [List.mem_map] at h
  obtain ⟨c, hc, he⟩ := h
  exact List.ne_nil_of_mem (List.mem_filter.mpr ⟨hc, by simp [he]⟩)

theorem strip_nulls_no_null (t : String) : ∀ c ∈ (strip_nulls t).data, c ≠ '\x00' := by
  intro c hc
  have h := (List.mem_filter.mp hc).2
  simpa using h

theorem strip_nulls_truncate_length (t : String) (n : Nat) :
    (strip_nulls (truncate t n)).length ≤ n := by
  show ((t.data.take n).filter (fun c => c != '\x00')).length ≤ n
  calc ((t.data.take n).filter (fun c => c != '\x00')).length
      ≤ (t.data.take n).length := List.length_filter_le _ _
    _ ≤ n := by rw [List.length_take]; exact Nat.min_le_left _ _

/-! ### The claims -/

/-- C6: for every singleton candidate list, `get_preferred_story` returns
that single story unchanged; the equation holds for every environment and
every store, so no ranking and no sentence-count lookup can influence the
result. -/
theorem get_preferred_story_singleton (env : Env) (db : DB) (s : Story) :
    get_preferred_story env db [s] = .ok s := rfl

/-- C1: at a url whose variant set matches nothing in the store (here: an
empty store), `get_story_match` does NOT return an empty result — it passes
the empty candidate list straight to `get_preferred_story`, whose
empty-candidate precondition (`assert len(stories) > 0`) fails. This
contradicts the claim and the function's own documented contract
("Returns: the matched story or None"). -/
theorem get_story_match_empty_store_raises :
    get_story_match envTest dbEmptyStore "http://example.com/a" none
      = .error .assertionFailed := rfl

/-- C9: every story built by `add_new_story` has url and guid of length at
most `_MAX_URL_LENGTH = 1024`, and its url, guid and title contain no null
characters. -/
theorem add_new_story_sanitized (env : NewStoryEnv) (url content : String)
    (fb : Option String) :
    (add_new_story env url content fb).url.length ≤ _MAX_URL_LENGTH ∧
    (add_new_story env url content fb).guid.length ≤ _MAX_URL_LENGTH ∧
    (∀ c ∈ (add_new_story env url content fb).url.data, c ≠ '\x00') ∧
    (∀ c ∈ (add_new_story env url content fb).guid.data, c ≠ '\x00') ∧
    (∀ c ∈ (add_new_story env url content fb).title.data, c ≠ '\x00') :=
  ⟨strip_nulls_truncate_length url _MAX_URL_LENGTH,
   strip_nulls_truncate_length url _MAX_URL_LENGTH,
   strip_nulls_no_null (truncate url _MAX_URL_LENGTH),
   strip_nulls_no_null (truncate url _MAX_URL_LENGTH),
   strip_nulls_no_null
     (env.html_title content (truncate url _MAX_URL_LENGTH) _MAX_TITLE_LENGTH)⟩

/-- Witness for C9 at a concrete environment, instantiating the bounded
quantifier at the letter present in the synthesized url. -/
theorem add_new_story_sanitized_witness :
    (add_new_story env8 "http://w.example/art" "content" none).url.length
      ≤ _MAX_URL_LENGTH ∧ ('h' : Char) ≠ '\x00' :=
  ⟨(add_new_story_sanitized env8 "http://w.example/art" "content" none).1,
   (add_new_story_sanitized env8 "http://w.example/art" "content" none).2.2.1
     'h' (by decide)⟩

/-- C8: the `publish_date` of a story synthesized by `add_new_story` is
the guessed date when the date guesser found one, else the fallback date
when supplied, else the current timestamp. -/
theorem add_new_story_publish_date (env : NewStoryEnv) (url content : String)
    (fb : Option String) :
    (∀ d, (env.guess_date (truncate url _MAX_URL_LENGTH) content).found = true →
      (env.guess_date (truncate url _MAX_URL_LENGTH) content).date = some d →
      (add_new_story env url content fb).publish_date = some d) ∧
    ((env.guess_date (truncate url _MAX_URL_LENGTH) content).found = false →
      ∀ f, fb = some f → (add_new_story env url content fb).publish_date = some f) ∧
    ((env.guess_date (truncate url _MAX_URL_LENGTH) content).found = false →
      fb = none → (add_new_story env url content fb).publish_date = some env.now) := by
  refine ⟨?_, ?_, ?_⟩
  · intro d hf hd
    simp [add_new_story, hf, hd]
  · intro hf f hfb
    simp [add_new_story, hf, hfb]
  · intro hf hfb
    simp [add_new_story, hf, hfb]

/-- Witness for C8 at a concrete environment whose guesser finds
2020-01-01. -/
theorem add_new_story_publish_date_witness :
    (add_new_story env8 "http://w.example/art" "content" none).publish_date
      = some "2020-01-01" :=
  (add_new_story_publish_date env8 "http://w.example/art" "content" none).1
    "2020-01-01" rfl rfl

/-- C7: the tag-set/tag pair attached by `assign_date_guess_tag` follows
the classification table: found-by-url gives `guess_by_url`; found-by-tag
gives `guess_by_tag_` plus the parsed tag name, or `guess_by_tag_unknown`
when no name parses; any other found method gives `guess_by_unknown`;
not found with a fallback date gives `fallback_date`; not found without
one gives the `date_invalid` pair. -/
theorem assign_date_guess_tag_table (dg : GuessDateResult) (fb : Option String) :
    (dg.found = true → startswith dg.guess_method "Extracted from url" = true →
      assign_date_guess_tag dg fb = ("date_guess_method", "guess_by_url")) ∧
    (∀ nm, dg.found = true →
      startswith dg.guess_method "Extracted from url" = false →
      startswith dg.guess_method "Extracted from tag" = true →
      find_tag_name dg.guess_method.data = some nm →
      assign_date_guess_tag dg fb = ("date_guess_method", "guess_by_tag_" ++ nm)) ∧
    (dg.found = true →
      startswith dg.guess_method "Extracted from url" = false →
      startswith dg.guess_method "Extracted from tag" = true →
      find_tag_name dg.guess_method.data = none →
      assign_date_guess_tag dg fb = ("date_guess_method", "guess_by_tag_unknown")) ∧
    (dg.found = true →
      startswith dg.guess_method "Extracted from url" = false →
      startswith dg.guess_method "Extracted from tag" = false →
      assign_date_guess_tag dg fb = ("date_guess_method", "guess_by_unknown")) ∧
    (dg.found = false → fb.isSome = true →
      assign_date_guess_tag dg fb = ("date_guess_method", "fallback_date")) ∧
    (dg.found = false → fb = none →
      assign_date_guess_tag dg fb = ("date_invalid", "date_invalid")) := by
  refine ⟨?_, ?_, ?_, ?_, ?_, ?_⟩ <;> intros <;> (simp_all [assign_date_guess_tag]; try rfl)

/-- Witness for C7 exercising all five rows of the table (the found-by-tag
row both with a parseable and an unparseable tag name). -/
theorem assign_date_guess_tag_table_witness :
    assign_date_guess_tag dgU none = ("date_guess_method", "guess_by_url") ∧
    assign_date_guess_tag dgT none = ("date_guess_method", "guess_by_tag_h1") ∧
    assign_date_guess_tag dgTbad none = ("date_guess_method", "guess_by_tag_unknown") ∧
    assign_date_guess_tag dgO none = ("date_guess_method", "guess_by_unknown") ∧
    assign_date_guess_tag dgN (some "2020-01-01") = ("date_guess_method", "fallback_date") ∧
    assign_date_guess_tag dgN none = ("date_invalid", "date_invalid") :=
  ⟨(assign_date_guess_tag_table dgU none).1 rfl rfl,
   (assign_date_guess_tag_table dgT none).2.1 "h1" rfl rfl rfl rfl,
   (assign_date_guess_tag_table dgTbad none).2.2.1 rfl rfl rfl rfl,
   (assign_date_guess_tag_table dgO none).2.2.2.1 rfl rfl rfl,
   (assign_date_guess_tag_table dgN (some "2020-01-01")).2.2.2.2.1 rfl rfl,
   (assign_date_guess_tag_table dgN none).2.2.2.2.2 rfl rfl⟩

/-- C2 counterexample: with the redirect ignored (the redirect's medium
url is on the ignore list), the effective redirect used by
`get_story_match` is the empty string, NOT the truncated original url the
claim requires, and the empty string enters the variant set. -/
theorem effective_redirect_ignored_counterexample :
    ignore_redirect envTest dbIgn "http://a.example" (some "http://park.example") = true ∧
    effective_redirect envTest dbIgn "http://a.example" (some "http://park.example") = "" ∧
    effective_redirect envTest dbIgn "http://a.example" (some "http://park.example")
      ≠ truncate "http://a.example" _MAX_URL_LENGTH ∧
    "" ∈ variant_urls envTest dbIgn "http://a.example" (some "http://park.example") :=
  ⟨rfl, rfl, by decide, by decide⟩

/-- C2 (amended): when the redirect is absent the effective redirect is
the truncated original url; when `ignore_redirect` is true the effective
redirect is the empty-string placeholder `''` (which then enters the
variant set); otherwise it is the truncated redirect url. -/
theorem effective_redirect_cases (env : Env) (db : DB) (url r : String) :
    effective_redirect env db url none = truncate url _MAX_URL_LENGTH ∧
    (ignore_redirect env db url (some r) = true →
      effective_redirect env db url (some r) = "" ∧
      "" ∈ variant_urls env db url (some r)) ∧
    (ignore_redirect env db url (some r) = false →
      effective_redirect env db url (some r) = truncate r _MAX_URL_LENGTH) := by
  refine ⟨?_, ?_, ?_⟩
  · simp [effective_redirect, ignore_redirect]
  · intro h
    have he : effective_redirect env db url (some r) = "" := by
      simp [effective_redirect, h]
    refine ⟨he, ?_⟩
    simp only [variant_urls]
    rw [he]
    apply (mem_dedup _ _).mpr
    simp
  · intro h
    simp [effective_redirect, h]

/-- Witness for C2 (amended) at concrete stores: one ignored redirect
(yielding `''`) and one followed redirect (yielding the truncated
redirect url). -/
theorem effective_redirect_cases_witness :
    effective_redirect envTest dbIgn "http://b.example" (some "http://park.example") = "" ∧
    effective_redirect envTest dbIgn "http://b.example" (some "http://live.example")
      = truncate "http://live.example" _MAX_URL_LENGTH :=
  ⟨((effective_redirect_cases envTest dbIgn "http://b.example" "http://park.example").2.1
      rfl).1,
   (effective_redirect_cases envTest dbIgn "http://b.example" "http://live.example").2.2
      rfl⟩

/-- C3: when the candidates come from exactly two sources whose ranking
attributes agree except that one source is a duplication target (pointed
to by some other source's `dup_media_id`), `get_preferred_story` returns
a story of the duplication-target source, for either arrangement of the
two ranked rows (so independently of the numeric id ordering, which only
breaks ties on the last key). The consistency hypothesis says the store's
story rows carry the same `media_id` as the candidate rows they share an
id with. -/
theorem get_preferred_story_prefers_dup_target
    (env : Env) (db : DB) (stories : List Story) (rA rB : RankedMedium)
    (hset : rank_media env db stories = [rA, rB]
      ∨ rank_media env db stories = [rB, rA])
    (h2 : 2 ≤ stories.length)
    (hdupA : rA.is_dup_target = 0) (hdupB : rB.is_dup_target = 1)
    (_hnds : rA.is_not_dup_source = rB.is_not_dup_source)
    (_hmd : rA.matches_domain = rB.matches_domain)
    (hcons : ∀ c ∈ stories, ∀ r ∈ db.stories,
      r.stories_id = c.stories_id → r.media_id = c.media_id) :
    ∃ s, get_preferred_story env db stories = .ok s
      ∧ s.media_id = rA.medium.media_id := by
  cases stories with
  | nil => simp at h2
  | cons s1 t =>
    cases t with
    | nil => simp at h2
    | cons s2 rest =>
      have hmemA : rA ∈ rank_media env db (s1 :: s2 :: rest) := by
        rcases hset with hset | hset <;> rw [hset] <;> simp
      obtain ⟨-, hidsA, hstA, -, -⟩ := rank_media_fields env db _ rA hmemA
      have hklt1 : keyLt (rkey rB) (rkey rA) = false := by
        simp [keyLt, rkey, hdupA, hdupB]
      have hklt2 : keyLt (rkey rA) (rkey rB) = true := by
        simp [keyLt, rkey, hdupA, hdupB]
      have htop : sorted_head (rank_media env db (s1 :: s2 :: rest)) = some rA := by
        rcases hset with hset | hset <;> rw [hset] <;>
          simp [sorted_head, hklt1, hklt2]
      have hstne : rA.stories ≠ [] := by
        rw [hstA]; exact filter_media_ne_nil _ _ hidsA
      obtain ⟨s, hs, hmem⟩ := gswms_spec db rA.stories hstne
      refine ⟨s, ?_, ?_⟩
      · show get_preferred_story env db (s1 :: s2 :: rest) = .ok s
        simp only [get_preferred_story, htop]
        exact hs
      · rcases hmem with hmem | ⟨hdbmem, c, hc, hce⟩
        · rw [hstA] at hmem
          have h := (List.mem_filter.mp hmem).2
          simpa using h
        · rw [hstA] at hc
          have hcf := List.mem_filter.mp hc
          have hcm : c.media_id = rA.medium.media_id := by simpa using hcf.2
          have hsm : s.media_id = c.media_id := hcons c hcf.1 s hdbmem hce
          rw [hsm, hcm]

/-- Witness for C3: the duplication-target source `mA3` (id 5) beats the
non-target source `mB3` (id 2) although its numeric id is higher. -/
theorem get_preferred_story_prefers_dup_target_witness :
    ∃ s, get_preferred_story envTest db3 [sA3, sB3] = .ok s
      ∧ s.media_id = rA3.medium.media_id :=
  get_preferred_story_prefers_dup_target envTest db3 [sA3, sB3] rA3 rB3
    (Or.inr rfl) (by decide) rfl rfl rfl rfl (by decide)

/-- C4: when the two ranked sources tie on the duplication-target and
not-itself-a-duplicate keys, `get_preferred_story` prefers the source
whose url's distinctive domain matches the distinctive domain of some
candidate story's url over the source with no such match. -/
theorem get_preferred_story_prefers_domain_match
    (env : Env) (db : DB) (stories : List Story) (rA rB : RankedMedium)
    (hset : rank_media env db stories = [rA, rB]
      ∨ rank_media env db stories = [rB, rA])
    (h2 : 2 ≤ stories.length)
    (hdup : rA.is_dup_target = rB.is_dup_target)
    (hnds : rA.is_not_dup_source = rB.is_not_dup_source)
    (hmdA : _url_domain_matches_medium env rA.medium
      (stories.map (fun s => s.url)) = true)
    (hmdB : _url_domain_matches_medium env rB.medium
      (stories.map (fun s => s.url)) = false)
    (hcons : ∀ c ∈ stories, ∀ r ∈ db.stories,
      r.stories_id = c.stories_id → r.media_id = c.media_id) :
    ∃ s, get_preferred_story env db stories = .ok s
      ∧ s.media_id = rA.medium.media_id := by
  cases stories with
  | nil => simp at h2
  | cons s1 t =>
    cases t with
    | nil => simp at h2
    | cons s2 rest =>
      have hmemA : rA ∈ rank_media env db (s1 :: s2 :: rest) := by
        rcases hset with hset | hset <;> rw [hset] <;> simp
      have hmemB : rB ∈ rank_media env db (s1 :: s2 :: rest) := by
        rcases hset with hset | hset <;> rw [hset] <;> simp
      obtain ⟨-, hidsA, hstA, -, hmdA2⟩ := rank_media_fields env db _ rA hmemA
      obtain ⟨-, -, -, -, hmdB2⟩ := rank_media_fields env db _ rB hmemB
      have hdomA : rA.matches_domain = 0 := by rw [hmdA2, if_pos hmdA]
      have hdomB : rB.matches_domain = 1 := by
        rw [hmdB2, if_neg (by rw [hmdB]; simp)]
      have hklt1 : keyLt (rkey rB) (rkey rA) = false := by
        simp [keyLt, rkey, hdomA, hdomB, ← hdup, ← hnds]
      have hklt2 : keyLt (rkey rA) (rkey rB) = true := by
        simp [keyLt, rkey, hdomA, hdomB, ← hdup, ← hnds]
      have htop : sorted_head (rank_media env db (s1 :: s2 :: rest)) = some rA := by
        rcases hset with hset | hset <;> rw [hset] <;>
          simp [sorted_head, hklt1, hklt2]
      have hstne : rA.stories ≠ [] := by
        rw [hstA]; exact filter_media_ne_nil _ _ hidsA
      obtain ⟨s, hs, hmem⟩ := gswms_spec db rA.stories hstne
      refine ⟨s, ?_, ?_⟩
      · show get_preferred_story env db (s1 :: s2 :: rest) = .ok s
        simp only [get_preferred_story, htop]
        exact hs
      · rcases hmem with hmem | ⟨hdbmem, c, hc, hce⟩
        · rw [hstA] at hmem
          have h := (List.mem_filter.mp hmem).2
          simpa using h
        · rw [hstA] at hc
          have hcf := List.mem_filter.mp hc
          have hcm : c.media_id = rA.medium.media_id := by simpa using hcf.2
          have hsm : s.media_id = c.media_id := hcons c hcf.1 s hdbmem hce
          rw [hsm, hcm]

/-- Witness for C4: the domain-matching source `mA4` (id 7) beats the
non-matching source `mB4` (id 3) although its numeric id is higher. -/
theorem get_preferred_story_prefers_domain_match_witness :
    ∃ s, get_preferred_story envTest db4 [sA4, sB4] = .ok s
      ∧ s.media_id = rA4.medium.media_id :=
  get_preferred_story_prefers_domain_match envTest db4 [sA4, sB4] rA4 rB4
    (Or.inr rfl) (by decide) rfl rfl rfl rfl (by decide)

/-- C5 counterexample: two same-source candidates whose sentence counts
tie. The store query sees only the set of story ids, so it cannot follow
the candidate order: here the candidate list starts with `sB5`, yet the
selector returns `sA5` — not "the first story of that source in the
original candidate order" as the claim requires for ties. -/
theorem preferred_story_tie_counterexample :
    sentence_count db5 sA5.stories_id = sentence_count db5 sB5.stories_id ∧
    get_preferred_story envTest db5 [sB5, sA5] = .ok sA5 ∧
    [sB5, sA5].head? = some sB5 ∧
    sA5 ≠ sB5 :=
  ⟨rfl, rfl, rfl, by decide⟩

/-- C5 (amended): with at least two candidates, when the sentence-count
query returns a row, the returned story's sentence count is maximal among
the candidates (which of the maximal stories the store picks is not
determined by the candidate order); when the query yields nothing, the
first candidate in original order is returned. -/
theorem get_story_with_most_sentences_amended (db : DB) (stories : List Story)
    (h2 : 2 ≤ stories.length) :
    ∃ s, _get_story_with_most_sentences db stories = .ok s ∧
      (match db_query_story_with_most_sentences db
          (stories.map (fun c => c.stories_id)) with
       | some q => s = q ∧ ∀ c ∈ stories,
          sentence_count db c.stories_id ≤ sentence_count db s.stories_id
       | none => stories.head? = some s) := by
  cases stories with
  | nil => simp at h2
  | cons s1 t =>
    cases t with
    | nil => simp at h2
    | cons s2 rest =>
      rcases hq : db_query_story_with_most_sentences db
          ((s1 :: s2 :: rest).map (fun c => c.stories_id)) with _ | q
      · refine ⟨s1, ?_, ?_⟩
        · simp only [List.map_cons] at hq
          simp [_get_story_with_most_sentences, hq]
        · rw [hq]
          exact rfl
      · obtain ⟨-, -, hmax⟩ := db_query_spec db _ q hq
        refine ⟨q, ?_, ?_⟩
        · simp only [List.map_cons] at hq
          simp [_get_story_with_most_sentences, hq]
        · rw [hq]
          refine ⟨rfl, ?_⟩
          intro c hc
          exact hmax c.stories_id (List.mem_map_of_mem _ hc)

/-- Witness for C5 (amended) on the concrete tie store: the query returns
`sA5` and its count is maximal. -/
theorem get_story_with_most_sentences_amended_witness :
    ∃ s, _get_story_with_most_sentences db5 [sB5, sA5] = .ok s ∧
      (match db_query_story_with_most_sentences db5
          ([sB5, sA5].map (fun c => c.stories_id)) with
       | some q => s = q ∧ ∀ c ∈ [sB5, sA5],
          sentence_count db5 c.stories_id ≤ sentence_count db5 s.stories_id
       | none => [sB5, sA5].head? = some s) :=
  get_story_with_most_sentences_amended db5 [sB5, sA5] (by decide)

/-- C10: for every non-empty candidate list (whose media all exist in the
store, and whose story rows agree with the store on `media_id`),
`get_preferred_story` returns a story that carries the id of one of the
candidates and the `media_id` of the top-ranked source — it never
fabricates a record outside the candidate set. -/
theorem get_preferred_story_returns_candidate
    (env : Env) (db : DB) (stories : List Story)
    (hne : stories ≠ [])
    (hmed : ∀ s ∈ stories, s.media_id ∈ db.media.map (fun m => m.media_id))
    (hcons : ∀ c ∈ stories, ∀ r ∈ db.stories,
      r.stories_id = c.stories_id → r.media_id = c.media_id) :
    ∃ s, get_preferred_story env db stories = .ok s ∧
      (∃ c ∈ stories, s.stories_id = c.stories_id ∧ s.media_id = c.media_id) ∧
      (∀ top, sorted_head (rank_media env db stories) = some top →
        s.media_id = top.medium.media_id) := by
  cases stories with
  | nil => exact absurd rfl hne
  | cons s1 t =>
    cases t with
    | nil =>
      refine ⟨s1, rfl, ⟨s1, List.mem_cons_self _ _, rfl, rfl⟩, ?_⟩
      intro top htop
      have hmem := sorted_head_mem _ _ htop
      obtain ⟨-, hids, -, -, -⟩ := rank_media_fields env db _ top hmem
      simp only [List.map_cons, List.map_nil, List.mem_singleton] at hids
      exact hids.symm
    | cons s2 rest =>
      have hrne : rank_media env db (s1 :: s2 :: rest) ≠ [] := by
        have h1 := hmed s1 (List.mem_cons_self _ _)
        rw [List.mem_map] at h1
        obtain ⟨m, hmm, hme⟩ := h1
        unfold rank_media
        intro hnil
        rw [List.map_eq_nil_iff] at hnil
        have hmf : m ∈ db.media.filter
            (fun m => ((s1 :: s2 :: rest).map (fun s => s.media_id)).contains m.media_id) := by
          refine List.mem_filter.mpr ⟨hmm, ?_⟩
          apply (contains_iff_mem _ _).mpr
          rw [hme]
          exact List.mem_map_of_mem _ (List.mem_cons_self _ _)
        rw [hnil] at hmf
        exact absurd hmf (List.not_mem_nil m)
      have hex : ∃ top0, sorted_head (rank_media env db (s1 :: s2 :: rest)) = some top0 := by
        rcases hrm : rank_media env db (s1 :: s2 :: rest) with _ | ⟨r0, rt⟩
        · exact absurd hrm hrne
        · exact ⟨_, rfl⟩
      obtain ⟨top0, htop⟩ := hex
      have hmemtop : top0 ∈ rank_media env db (s1 :: s2 :: rest) :=
        sorted_head_mem _ _ htop
      obtain ⟨-, hids, hsts, -, -⟩ := rank_media_fields env db _ top0 hmemtop
      have hstne : top0.stories ≠ [] := by
        rw [hsts]; exact filter_media_ne_nil _ _ hids
      obtain ⟨s, hs, hmem⟩ := gswms_spec db top0.stories hstne
      have hsub : ∀ x ∈ top0.stories,
          x ∈ (s1 :: s2 :: rest) ∧ x.media_id = top0.medium.media_id := by
        intro x hx
        rw [hsts] at hx
        have hxf := List.mem_filter.mp hx
        exact ⟨hxf.1, by simpa using hxf.2⟩
      have hfields : (∃ c ∈ (s1 :: s2 :: rest),
            s.stories_id = c.stories_id ∧ s.media_id = c.media_id)
          ∧ s.media_id = top0.medium.media_id := by
        rcases hmem with hmem | ⟨hdbmem, c, hc, hce⟩
        · obtain ⟨hin, hmid⟩ := hsub s hmem
          exact ⟨⟨s, hin, rfl, rfl⟩, hmid⟩
        · obtain ⟨hin, hmid⟩ := hsub c hc
          have hsm : s.media_id = c.media_id := hcons c hin s hdbmem hce
          exact ⟨⟨c, hin, hce, hsm⟩, by rw [hsm, hmid]⟩
      refine ⟨s, ?_, hfields.1, ?_⟩
      · show get_preferred_story env db (s1 :: s2 :: rest) = .ok s
        simp only [get_preferred_story, htop]
        exact hs
      · intro top htop2
        rw [htop] at htop2
        rw [← Option.some.inj htop2]
        exact hfields.2

/-- Witness for C10 on a concrete two-source store. -/
theorem get_preferred_story_returns_candidate_witness :
    ∃ s, get_preferred_story envTest db10 [s10a, s10b] = .ok s ∧
      (∃ c ∈ [s10a, s10b], s.stories_id = c.stories_id ∧ s.media_id = c.media_id) ∧
      (∀ top, sorted_head (rank_media envTest db10 [s10a, s10b]) = some top →
        s.media_id = top.medium.media_id) :=
  get_preferred_story_returns_candidate envTest db10 [s10a, s10b]
    (by decide) (by decide) (by decide)
